import Mathlib

/-!
Verification of the worker lifecycle orchestrator (`src/worker_thread.py`)
and of the environment checklist CLI (`src/check_env.py`) of the
`rt-env-test` repository, as a shallow embedding in Lean 4.

The `llm_worker` class in `worker_thread.py` subclasses an unseen base
class `WorkerThread`; the base-class lifecycle operations
(`cleanup_old_containers`, `setup_env`, `setup_networks`, `setup_volumes`,
`start_container`, and the initial `WorkerConfig`) are modelled from the
specification (sections 4.3, 6 and 7 of the design document).  Everything
else is translated directly from the Python source.
-/

/-! ### Data model -/

/-- A volume bind-mount descriptor, as stored in `container_volumes`
(Python dict value `\x7b"bind": ..., "mode": ...\x7d`). -/
structure VolumeBinding where
  bind : String
  mode : String
deriving DecidableEq, Repr

/-- `docker.types.DeviceRequest` as used by `llm_worker.start`:
a count (`-1` meaning "all"), capability classes, and a driver name. -/
structure DeviceRequest where
  count : Int
  capabilities : List (List String)
  driver : String
deriving DecidableEq, Repr

/-- Python dict insertion (last-write-wins, original position kept on
overwrite), used for `container_volumes[key] = value`. -/
def dictInsert (k : String) (v : VolumeBinding) :
    List (String × VolumeBinding) → List (String × VolumeBinding)
  | [] => [(k, v)]
  | (k0, v0) :: rest =>
      if k0 = k then (k0, v) :: rest else (k0, v0) :: dictInsert k v rest

/-- The mutable `WorkerConfig` of a worker (spec section 3): image name,
config-file path, environment map, volume map, device requests and the
free-form process configuration. -/
structure WorkerConfig where
  image_name : String
  config_file : String
  container_env : List (String × String)
  container_volumes : List (String × VolumeBinding)
  device_requests : List DeviceRequest
  process_config : List (String × String)
deriving DecidableEq, Repr

/-- The create-spec handed to the container runtime adapter (spec section 6):
image, env map, network name, volume bindings, device requests. -/
structure ContainerSpec where
  image : String
  env : List (String × String)
  network : String
  volumes : List (String × VolumeBinding)
  devices : List DeviceRequest
deriving DecidableEq, Repr

/-- A container registered with the runtime: its identity key, the spec it
was created from, and whether it has been started. -/
structure Container where
  identity : String
  spec : ContainerSpec
  running : Bool
deriving DecidableEq, Repr

/-- The error taxonomy of spec section 7.  `llm_worker.start` reports a
missing `results_dir` with a critical log followed by `sys.exit(1)`; this
fatal fail-fast path is embedded as `configurationError`. -/
inductive WorkerError where
  | configurationError (msg : String)
  | resourceConflictError
  | partialStartError
  | runtimeUnavailableError
deriving DecidableEq, Repr

/-- Lifecycle phases of a `start()` call, in the order the spec lists them. -/
inductive Phase where
  | cleanup
  | applyEnv
  | attachNetwork
  | mountVolumes
  | attachDevices
  | startContainer
deriving DecidableEq, Repr

/-- Fault-injection oracle for the container runtime adapter: whether
removal of a found stale container, container creation, and container
start succeed. -/
structure RuntimeBehavior where
  removeOk : Bool
  createOk : Bool
  startOk : Bool
deriving DecidableEq, Repr

/-! ### Access tokens: `secrets.token_urlsafe(32)`

`secrets.token_urlsafe(32)` draws 32 bytes from the CSPRNG and encodes
them with URL-safe base64, stripping the `=` padding.  The encoding is
modelled byte-for-byte; the random source is modelled as an input byte
list. -/

/-- The URL-safe base64 alphabet. -/
def b64Alphabet : List Char :=
  "ABCDEFGHIJKLMNOPQRSTUVWXYZabcdefghijklmnopqrstuvwxyz0123456789-_".toList

/-- The character standing for a sextet value. -/
def b64Char (n : Nat) : Char := b64Alphabet.getD n 'A'

/-- Recovers the sextet value of an alphabet character. -/
def b64CharVal (c : Char) : Nat := b64Alphabet.indexOf c

/-- Packs a byte list into base64 sextet values, unpadded (the `=` padding
that `token_urlsafe` strips is never produced). -/
def b64Sextets : List Nat → List Nat
  | a :: b :: c :: rest =>
      a / 4 :: ((a % 4) * 16 + b / 16) :: ((b % 16) * 4 + c / 64) :: (c % 64)
        :: b64Sextets rest
  | [a, b] => [a / 4, (a % 4) * 16 + b / 16, (b % 16) * 4]
  | [a] => [a / 4, (a % 4) * 16]
  | [] => []

/-- Unpacks sextet values back into bytes (left inverse of `b64Sextets`
on byte lists). -/
def b64Unsextets : List Nat → List Nat
  | s0 :: s1 :: s2 :: s3 :: rest =>
      (s0 * 4 + s1 / 16) :: ((s1 % 16) * 16 + s2 / 4) :: ((s2 % 4) * 64 + s3)
        :: b64Unsextets rest
  | [s0, s1, s2] => [s0 * 4 + s1 / 16, (s1 % 16) * 16 + s2 / 4]
  | [s0, s1] => [s0 * 4 + s1 / 16]
  | _ => []

/-- `secrets.token_urlsafe` applied to a given byte string: URL-safe
base64 without padding. -/
def tokenUrlsafe (bytes : List Nat) : List Char :=
  (b64Sextets bytes).map b64Char

/-! ### The worker and the orchestrator lifecycle -/

/-- A worker instance: its `WorkerConfig` and the access token issued at
construction. -/
structure Worker where
  config : WorkerConfig
  access_token : List Char
deriving DecidableEq, Repr

/-- Python `f"\x7bos.getenv(...)\x7d"` semantics: `None` prints as `"None"`. -/
def pyStrOfOpt : Option String → String
  | none => "None"
  | some s => s

/-- The host path `f"\x7bos.getenv('DOCKER_SYSTEM_DIRECTORY')\x7d/.llm_worker_cache"`
from `llm_worker.start`. -/
def llmCachePath (hostEnv : String → Option String) : String :=
  pyStrOfOpt (hostEnv "DOCKER_SYSTEM_DIRECTORY") ++ "/.llm_worker_cache"

/-- The image name set by `llm_worker.start`, also used as the container
identity key (the spec leaves the identity key open; image name plus the
fixed per-kind logical name collapses to the image name here). -/
def llmImageName : String := "ghcr.io/oran-testing/llm_worker"

/-- The GPU passthrough request appended by `llm_worker.start`:
`DeviceRequest(count=-1, capabilities=[["gpu"]], driver="nvidia")`. -/
def gpuAllRequest : DeviceRequest :=
  { count := -1, capabilities := [["gpu"]], driver := "nvidia" }

/-- Modelled from the spec: the base class initializes an empty
`WorkerConfig` holding the process configuration and the per-instance
config-file path; `llm_worker.__init__` then issues the access token with
`secrets.token_urlsafe(32)`, embedded as the URL-safe encoding of the
first 32 bytes drawn from the random source. -/
def llm_worker_init (config_file : String) (process_config : List (String × String))
    (randomBytes : List Nat) : Worker :=
  { config :=
      { image_name := ""
        config_file := config_file
        container_env := []
        container_volumes := []
        device_requests := []
        process_config := process_config }
    access_token := tokenUrlsafe (randomBytes.take 32) }

/-- `llm_worker.get_token`: returns the stored access token. -/
def get_token (w : Worker) : List Char := w.access_token

/-- Modelled from the spec: `cleanup_old_containers` queries the runtime
for containers matching this worker's identity and forcibly removes them;
finding none is not an error, while failing to remove a found match is
fatal (ResourceConflictError) and aborts without creating anything. -/
def cleanup_old_containers (identity : String) (beh : RuntimeBehavior)
    (st : List Container) : Except WorkerError (List Container) :=
  if st.any (fun c => c.identity == identity) then
    if beh.removeOk then
      Except.ok (st.filter (fun c => c.identity != identity))
    else Except.error WorkerError.resourceConflictError
  else Except.ok st

/-- Modelled from the spec: `setup_env` freezes the environment map onto
the pending create-spec. -/
def setup_env (cfg : WorkerConfig) (pending : ContainerSpec) : ContainerSpec :=
  { pending with env := cfg.container_env }

/-- Modelled from the spec: the designated logical network shared with the
telemetry backend and the control plane. -/
def logicalNetworkName : String := "rt_network"

/-- Modelled from the spec: `setup_networks` attaches the pending
create-spec to the designated logical network. -/
def setup_networks (pending : ContainerSpec) : ContainerSpec :=
  { pending with network := logicalNetworkName }

/-- Modelled from the spec: `setup_volumes` translates every entry of
`container_volumes` onto the create-spec unchanged; read-only bindings are
passed through as such, never silently made writable. -/
def setup_volumes (cfg : WorkerConfig) (pending : ContainerSpec) : ContainerSpec :=
  { pending with volumes := cfg.container_volumes }

/-- Modelled from the spec: `start_container` asks the runtime adapter to
create then start the container.  If creation fails nothing was
materialized (RuntimeUnavailableError).  If creation succeeds but the
start fails, the created-but-unstarted container is removed before the
error is surfaced (PartialStartError), so the returned state is the
pre-create state. -/
def start_container (cfg : WorkerConfig) (pending : ContainerSpec)
    (beh : RuntimeBehavior) (st : List Container) :
    Except WorkerError (List Container) :=
  if beh.createOk then
    let spec : ContainerSpec :=
      { pending with image := cfg.image_name, devices := cfg.device_requests }
    let created : Container := { identity := cfg.image_name, spec := spec, running := false }
    if beh.startOk then
      Except.ok (st ++ [{ created with running := true }])
    else
      -- the partially-created container is removed: the runtime reverts to `st`
      Except.error WorkerError.partialStartError
  else Except.error WorkerError.runtimeUnavailableError

/-- The observable result of a `start()` call: the outcome, the worker
(with its mutated config), the runtime state, and the trace of lifecycle
phases that ran. -/
structure StartResult where
  outcome : Except WorkerError Unit
  worker : Worker
  runtime : List Container
  trace : List Phase
deriving Repr

/-- The full phase order of a completed `start()` call. -/
def canonicalPhases : List Phase :=
  [Phase.cleanup, Phase.applyEnv, Phase.attachNetwork, Phase.mountVolumes,
   Phase.attachDevices, Phase.startContainer]

/-- `llm_worker.start`, translated line by line from
`src/worker_thread.py`: check `results_dir` (Python falsiness: absent key
or empty string triggers the critical log and `sys.exit(1)`), set the
image name, clean up stale containers, build and apply the environment,
attach the network, register the three volume bindings, apply them,
append the GPU device request, then create-and-start the container. -/
def llm_worker_start (w : Worker) (hostEnv : String → Option String)
    (beh : RuntimeBehavior) (st : List Container) : StartResult :=
  match w.config.process_config.lookup "results_dir" with
  | none =>
      { outcome := Except.error (WorkerError.configurationError
          "Failed to start llm_worker: required field results_dir is missing")
        worker := w, runtime := st, trace := [] }
  | some results_dir =>
    if results_dir.isEmpty then
      { outcome := Except.error (WorkerError.configurationError
          "Failed to start llm_worker: required field results_dir is missing")
        worker := w, runtime := st, trace := [] }
    else
      let cfg1 := { w.config with image_name := llmImageName }
      match cleanup_old_containers cfg1.image_name beh st with
      | Except.error e =>
          { outcome := Except.error e, worker := { w with config := cfg1 }
            runtime := st, trace := [Phase.cleanup] }
      | Except.ok st1 =>
        let newEnv : List (String × String) :=
          [("CONFIG", cfg1.config_file),
           ("RESULTS_DIR", results_dir),
           ("NVIDIA_VISIBLE_DEVICES", "all"),
           ("NVIDIA_DRIVER_CAPABILITIES", "all")]
        let cfg2 := { cfg1 with container_env := newEnv }
        let p1 := setup_env cfg2 (ContainerSpec.mk "" [] "" [] [])
        let p2 := setup_networks p1
        let newVols : List (String × VolumeBinding) :=
          dictInsert "/tmp/.rt_results" (VolumeBinding.mk "/host/logs/" "rw")
            (dictInsert (llmCachePath hostEnv) (VolumeBinding.mk "/app/huggingface_cache" "rw")
              (dictInsert cfg2.config_file (VolumeBinding.mk "/llm.yaml" "ro")
                cfg2.container_volumes))
        let cfg3 := { cfg2 with container_volumes := newVols }
        let p3 := setup_volumes cfg3 p2
        let cfg4 := { cfg3 with device_requests := cfg3.device_requests ++ [gpuAllRequest] }
        match start_container cfg4 p3 beh st1 with
        | Except.error e =>
            { outcome := Except.error e, worker := { w with config := cfg4 }
              runtime := st1, trace := canonicalPhases }
        | Except.ok st2 =>
            { outcome := Except.ok (), worker := { w with config := cfg4 }
              runtime := st2, trace := canonicalPhases }

/-! ### The environment checklist CLI (`src/check_env.py`) -/

/-- Python `spec.split("=", 1)` specialised to the use in
`check_env_variable`: the part before the first `=` and, when a `=`
occurs, everything after it. -/
def splitOnceEq : List Char → List Char × Option (List Char)
  | [] => ([], none)
  | c :: rest =>
      if c = '=' then ([], some rest)
      else
        let p := splitOnceEq rest
        (c :: p.1, p.2)

/-- `check_env_variable` from `src/check_env.py`: `VAR` passes when the
variable is set; `VAR=VALUE` passes when it is set and equals `VALUE`
exactly.  The process environment is the function `env`. -/
def check_env_variable (env : List Char → Option (List Char))
    (spec : List Char) : Bool :=
  let p := splitOnceEq spec
  match env p.1 with
  | none => false
  | some actual =>
      match p.2 with
      | some expected => if actual = expected then true else false
      | none => true

/-- One requested check of the checklist CLI, with its argument. -/
inductive CheckKind where
  | images (dir : String)
  | usb
  | host (h : String)
  | envVar (spec : List Char)
  | configFile (p : String)
  | influxdb
  | controlApi
deriving DecidableEq, Repr

/-- The command-line options of `check_env.py` that select checks.
`argparse` leaves an unset `--images-dir`/`--check-host` as `None` and an
unset `append` option as `None` (modelled as the empty list, which Python
treats as falsy exactly like `None`). -/
structure Args where
  images_dir : Option String
  check_usb : Bool
  check_host : Option String
  check_env : List (List Char)
  check_config : List String
  check_influxdb : Bool
  check_control_api : Bool

/-- The external world the checks observe: the filesystem, the USB bus,
the network, the process environment, InfluxDB and the control API.  Each
field gives the outcome the corresponding check function would report. -/
structure World where
  images_ok : String → Bool
  usb_ok : Bool
  host_ok : String → Bool
  env : List Char → Option (List Char)
  config_ok : String → Bool
  influx_ok : Bool
  api_ok : Bool

/-- The outcome of one requested check against a given world; environment
variable checks run the real `check_env_variable`. -/
def runCheck (w : World) : CheckKind → Bool
  | CheckKind.images d => w.images_ok d
  | CheckKind.usb => w.usb_ok
  | CheckKind.host h => w.host_ok h
  | CheckKind.envVar s => check_env_variable w.env s
  | CheckKind.configFile p => w.config_ok p
  | CheckKind.influxdb => w.influx_ok
  | CheckKind.controlApi => w.api_ok

/-- Python truthiness of an optional string option: `None` and `""` are
falsy. -/
def optTruthy : Option String → Bool
  | none => false
  | some s => !s.isEmpty

/-- The checks the `--images-dir` block of `main` requests. -/
def blkImages (a : Args) : List CheckKind :=
  match a.images_dir with
  | some d => if d.isEmpty then [] else [CheckKind.images d]
  | none => []

/-- The checks the `--check-usb` block of `main` requests. -/
def blkUsb (a : Args) : List CheckKind :=
  if a.check_usb then [CheckKind.usb] else []

/-- The checks the `--check-host` block of `main` requests. -/
def blkHost (a : Args) : List CheckKind :=
  match a.check_host with
  | some h => if h.isEmpty then [] else [CheckKind.host h]
  | none => []

/-- The checks the `--check-env` block of `main` requests. -/
def blkEnv (a : Args) : List CheckKind := a.check_env.map CheckKind.envVar

/-- The checks the `--check-config` block of `main` requests. -/
def blkConfig (a : Args) : List CheckKind := a.check_config.map CheckKind.configFile

/-- The checks the `--check-influxdb` block of `main` requests. -/
def blkInflux (a : Args) : List CheckKind :=
  if a.check_influxdb then [CheckKind.influxdb] else []

/-- The checks the `--check-control-api` block of `main` requests. -/
def blkApi (a : Args) : List CheckKind :=
  if a.check_control_api then [CheckKind.controlApi] else []

/-- All checks `main` requests, in the order its `if` blocks run them. -/
def requestedChecks (a : Args) : List CheckKind :=
  blkImages a ++ blkUsb a ++ blkHost a ++ blkEnv a ++ blkConfig a
    ++ blkInflux a ++ blkApi a

/-- The `if args.images_dir:` block of `main`: when requested, run the
UHD-image check, record its pass/fail line, and OR a failure into the
`failed` flag. -/
def imagesBlock (a : Args) (w : World) (acc : List (CheckKind × Bool) × Bool) :
    List (CheckKind × Bool) × Bool :=
  match a.images_dir with
  | some d =>
      if d.isEmpty then acc
      else (acc.1 ++ [(CheckKind.images d, w.images_ok d)], acc.2 || !(w.images_ok d))
  | none => acc

/-- The `if args.check_usb:` block of `main`. -/
def usbBlock (a : Args) (w : World) (acc : List (CheckKind × Bool) × Bool) :
    List (CheckKind × Bool) × Bool :=
  if a.check_usb then
    (acc.1 ++ [(CheckKind.usb, w.usb_ok)], acc.2 || !w.usb_ok)
  else acc

/-- The `if args.check_host:` block of `main`. -/
def hostBlock (a : Args) (w : World) (acc : List (CheckKind × Bool) × Bool) :
    List (CheckKind × Bool) × Bool :=
  match a.check_host with
  | some h =>
      if h.isEmpty then acc
      else (acc.1 ++ [(CheckKind.host h, w.host_ok h)], acc.2 || !(w.host_ok h))
  | none => acc

/-- The `if args.check_env: for spec in args.check_env:` block of `main`,
running the real `check_env_variable` on each specification. -/
def envBlock (a : Args) (w : World) (acc : List (CheckKind × Bool) × Bool) :
    List (CheckKind × Bool) × Bool :=
  a.check_env.foldl
    (fun acc s =>
      (acc.1 ++ [(CheckKind.envVar s, check_env_variable w.env s)],
       acc.2 || !(check_env_variable w.env s))) acc

/-- The `if args.check_config: for path in args.check_config:` block of
`main`. -/
def configBlock (a : Args) (w : World) (acc : List (CheckKind × Bool) × Bool) :
    List (CheckKind × Bool) × Bool :=
  a.check_config.foldl
    (fun acc p =>
      (acc.1 ++ [(CheckKind.configFile p, w.config_ok p)],
       acc.2 || !(w.config_ok p))) acc

/-- The `if args.check_influxdb:` block of `main`. -/
def influxBlock (a : Args) (w : World) (acc : List (CheckKind × Bool) × Bool) :
    List (CheckKind × Bool) × Bool :=
  if a.check_influxdb then
    (acc.1 ++ [(CheckKind.influxdb, w.influx_ok)], acc.2 || !w.influx_ok)
  else acc

/-- The `if args.check_control_api:` block of `main`. -/
def apiBlock (a : Args) (w : World) (acc : List (CheckKind × Bool) × Bool) :
    List (CheckKind × Bool) × Bool :=
  if a.check_control_api then
    (acc.1 ++ [(CheckKind.controlApi, w.api_ok)], acc.2 || !w.api_ok)
  else acc

/-- `main` from `src/check_env.py`, translated block by block: `failed`
starts false, each requested check runs in order (its pass/fail line is
recorded as the boolean next to its `CheckKind`), a failure only sets the
flag, and the exit status is 1 when `failed` ended true, else 0. -/
def checkEnvMain (a : Args) (w : World) : List (CheckKind × Bool) × Nat :=
  let acc := apiBlock a w (influxBlock a w (configBlock a w (envBlock a w
    (hostBlock a w (usbBlock a w (imagesBlock a w ([], false)))))))
  (acc.1, if acc.2 then 1 else 0)

/-! ### Shared fixtures and helper lemmas -/

/-- The fault-free runtime behavior. -/
def allOk : RuntimeBehavior := { removeOk := true, createOk := true, startOk := true }

/-- A concrete, well-configured worker used to exercise the theorems. -/
def witWorker : Worker :=
  llm_worker_init "/cfg/llm.yaml" [("results_dir", "/tmp/res")] (List.range 32)

/-- A concrete host environment used to exercise the theorems. -/
def witHostEnv : String → Option String := fun _ => some "/sys/docker"

lemma filter_eq_of_filter_ne (id : String) (st : List Container) (p : Container → Bool) :
    (st.filter (fun c => c.identity != id)).filter
      (fun c => (c.identity == id) && p c) = [] := by
  rw [List.filter_filter, List.filter_eq_nil_iff]
  intro c _
  by_cases h : c.identity = id <;> simp [h]

lemma cleanup_ok_filter (id : String) (beh : RuntimeBehavior) (st st1 : List Container)
    (h : cleanup_old_containers id beh st = Except.ok st1) (p : Container → Bool) :
    st1.filter (fun c => (c.identity == id) && p c) = [] := by
  unfold cleanup_old_containers at h
  split at h
  · split at h
    · cases h
      exact filter_eq_of_filter_ne id st p
    · cases h
  · cases h
    next hany =>
      rw [Bool.not_eq_true] at hany
      rw [List.filter_eq_nil_iff]
      intro c hc
      have := (List.any_eq_false.mp hany) c hc
      by_cases hcid : c.identity = id <;> simp [hcid] at this ⊢

lemma cleanup_allOk (id : String) (st : List Container) :
    cleanup_old_containers id allOk st =
      Except.ok (st.filter (fun c => c.identity != id)) := by
  unfold cleanup_old_containers
  split
  · rfl
  · next hany =>
    rw [Bool.not_eq_true] at hany
    congr 1
    rw [eq_comm, List.filter_eq_self]
    intro c hc
    have := (List.any_eq_false.mp hany) c hc
    by_cases hcid : c.identity = id <;> simp [hcid] at this ⊢

/-! ### Claim theorems -/

/-- C1: if the key `results_dir` is absent from the LLM worker's
`process_config`, `start()` fails with a ConfigurationError before any
container is created: the result leaves the worker and the runtime state
untouched and the phase trace empty, so no runtime call (cleanup, create
or start) was made. -/
theorem llm_missing_results_dir_fails_fast
    (w : Worker) (hostEnv : String → Option String)
    (beh : RuntimeBehavior) (st : List Container)
    (h : w.config.process_config.lookup "results_dir" = none) :
    llm_worker_start w hostEnv beh st =
      { outcome := Except.error (WorkerError.configurationError
          "Failed to start llm_worker: required field results_dir is missing")
        worker := w, runtime := st, trace := [] } := by
  unfold llm_worker_start
  rw [h]

/-- Witness for C1: a worker whose `process_config` lacks `results_dir`. -/
theorem llm_missing_results_dir_fails_fast_witness :
    llm_worker_start (llm_worker_init "/cfg/llm.yaml" [("other", "x")] []) witHostEnv
        allOk [] =
      { outcome := Except.error (WorkerError.configurationError
          "Failed to start llm_worker: required field results_dir is missing")
        worker := llm_worker_init "/cfg/llm.yaml" [("other", "x")] []
        runtime := [], trace := [] } :=
  llm_missing_results_dir_fails_fast _ _ _ _ (by decide)

/-- The `WorkerConfig` of the LLM worker after a `start()` call that got
past the `results_dir` check, with `r` the configured results directory. -/
def llmFinalConfig (w : Worker) (hostEnv : String → Option String) (r : String) :
    WorkerConfig :=
  { image_name := llmImageName
    config_file := w.config.config_file
    container_env :=
      [("CONFIG", w.config.config_file),
       ("RESULTS_DIR", r),
       ("NVIDIA_VISIBLE_DEVICES", "all"),
       ("NVIDIA_DRIVER_CAPABILITIES", "all")]
    container_volumes :=
      dictInsert "/tmp/.rt_results" (VolumeBinding.mk "/host/logs/" "rw")
        (dictInsert (llmCachePath hostEnv) (VolumeBinding.mk "/app/huggingface_cache" "rw")
          (dictInsert w.config.config_file (VolumeBinding.mk "/llm.yaml" "ro")
            w.config.container_volumes))
    device_requests := w.config.device_requests ++ [gpuAllRequest]
    process_config := w.config.process_config }

/-- The create-spec the runtime adapter receives for the LLM worker. -/
def llmCreateSpec (w : Worker) (hostEnv : String → Option String) (r : String) :
    ContainerSpec :=
  { image := llmImageName
    env := (llmFinalConfig w hostEnv r).container_env
    network := logicalNetworkName
    volumes := (llmFinalConfig w hostEnv r).container_volumes
    devices := (llmFinalConfig w hostEnv r).device_requests }

/-- The container a successful LLM worker start leaves running. -/
def llmNewContainer (w : Worker) (hostEnv : String → Option String) (r : String) :
    Container :=
  { identity := llmImageName, spec := llmCreateSpec w hostEnv r, running := true }

lemma cleanup_removeOk (id : String) (beh : RuntimeBehavior)
    (hrem : beh.removeOk = true) (st : List Container) :
    cleanup_old_containers id beh st =
      Except.ok (st.filter (fun c => c.identity != id)) := by
  unfold cleanup_old_containers
  rw [hrem]
  split
  · rfl
  · next hany =>
    rw [Bool.not_eq_true] at hany
    congr 1
    rw [eq_comm, List.filter_eq_self]
    intro c hc
    have := (List.any_eq_false.mp hany) c hc
    by_cases hcid : c.identity = id <;> simp [hcid] at this ⊢

/-- Characterization of a `start()` call that passes the `results_dir`
check and whose cleanup succeeds: the result is determined by whether
create and start succeed. -/
lemma llm_start_characterization (w : Worker) (hostEnv : String → Option String)
    (beh : RuntimeBehavior) (st : List Container) (r : String)
    (hr : w.config.process_config.lookup "results_dir" = some r)
    (hne : r.isEmpty = false) (hrem : beh.removeOk = true) :
    llm_worker_start w hostEnv beh st =
      { outcome :=
          if beh.createOk then
            if beh.startOk then Except.ok ()
            else Except.error WorkerError.partialStartError
          else Except.error WorkerError.runtimeUnavailableError
        worker := { w with config := llmFinalConfig w hostEnv r }
        runtime :=
          if beh.createOk ∧ beh.startOk then
            st.filter (fun c => c.identity != llmImageName)
              ++ [llmNewContainer w hostEnv r]
          else st.filter (fun c => c.identity != llmImageName)
        trace := canonicalPhases } := by
  obtain ⟨rem, cr, stk⟩ := beh
  dsimp only at hrem
  subst hrem
  unfold llm_worker_start
  rw [hr]
  dsimp only
  rw [if_neg (by rw [hne]; exact Bool.false_ne_true)]
  rw [cleanup_removeOk _ _ rfl]
  dsimp only
  unfold start_container
  cases cr <;> cases stk <;> rfl

lemma filter_eq_id_of_filter_ne (id : String) (st : List Container) :
    (st.filter (fun c => c.identity != id)).filter
      (fun c => c.identity == id) = [] := by
  rw [List.filter_filter, List.filter_eq_nil_iff]
  intro c _
  by_cases h : c.identity = id <;> simp [h]

/-- C5: the access token is fixed at construction: `start()` never changes
the `access_token` field (on any path, with any behavior), and
`get_token` returns the construction-time value with no side effect, in
any interleaving with `start()`. -/
theorem llm_access_token_stable
    (w : Worker) (hostEnv : String → Option String)
    (beh : RuntimeBehavior) (st : List Container) :
    (llm_worker_start w hostEnv beh st).worker.access_token = w.access_token ∧
    get_token w = w.access_token ∧
    get_token (llm_worker_start w hostEnv beh st).worker = w.access_token := by
  have key : (llm_worker_start w hostEnv beh st).worker.access_token
      = w.access_token := by
    unfold llm_worker_start
    cases hl : w.config.process_config.lookup "results_dir" with
    | none => rfl
    | some r =>
      dsimp only
      split
      · rfl
      · split
        · rfl
        · split <;> rfl
  exact ⟨key, rfl, key⟩

/-- C6: within a single `start()` call the phases run strictly in the
order cleanup, apply environment, attach network, mount volumes, attach
devices, start container: every trace is a prefix of this canonical
order (never reordered), and a successful call runs exactly this
sequence. -/
theorem llm_phase_order
    (w : Worker) (hostEnv : String → Option String)
    (beh : RuntimeBehavior) (st : List Container) :
    (llm_worker_start w hostEnv beh st).trace <+: canonicalPhases ∧
    ((llm_worker_start w hostEnv beh st).outcome = Except.ok () →
      (llm_worker_start w hostEnv beh st).trace = canonicalPhases) := by
  unfold llm_worker_start
  cases hl : w.config.process_config.lookup "results_dir" with
  | none => exact ⟨⟨canonicalPhases, rfl⟩, fun h => nomatch h⟩
  | some r =>
    dsimp only
    split
    · exact ⟨⟨canonicalPhases, rfl⟩, fun h => nomatch h⟩
    · split
      · exact ⟨⟨[Phase.applyEnv, Phase.attachNetwork, Phase.mountVolumes,
          Phase.attachDevices, Phase.startContainer], rfl⟩, fun h => nomatch h⟩
      · split
        · exact ⟨List.prefix_refl _, fun _ => rfl⟩
        · exact ⟨List.prefix_refl _, fun _ => rfl⟩

/-- Witness for C6: a fault-free start of a well-configured worker runs
exactly the canonical phase sequence. -/
theorem llm_phase_order_witness :
    (llm_worker_start witWorker witHostEnv allOk []).trace = canonicalPhases :=
  (llm_phase_order witWorker witHostEnv allOk []).2 rfl

/-- C2: if `create` succeeds but the actual `start` fails, the
created-but-unstarted container is removed before the error is surfaced:
the outcome is PartialStartError and the final runtime state holds zero
containers for the worker's identity. -/
theorem llm_partial_start_no_orphan
    (w : Worker) (hostEnv : String → Option String) (st : List Container)
    (r : String)
    (hr : w.config.process_config.lookup "results_dir" = some r)
    (hne : r.isEmpty = false) :
    (llm_worker_start w hostEnv (RuntimeBehavior.mk true true false) st).outcome
        = Except.error WorkerError.partialStartError ∧
    ((llm_worker_start w hostEnv (RuntimeBehavior.mk true true false) st).runtime.filter
        (fun c => c.identity == llmImageName)).length = 0 := by
  rw [llm_start_characterization w hostEnv (RuntimeBehavior.mk true true false) st r hr hne rfl]
  refine ⟨rfl, ?_⟩
  show ((st.filter (fun c => c.identity != llmImageName)).filter
      (fun c => c.identity == llmImageName)).length = 0
  rw [filter_eq_id_of_filter_ne]
  rfl

/-- Witness for C2: create-then-start-failure on a concrete worker and a
runtime already holding a stale container of the same identity. -/
theorem llm_partial_start_no_orphan_witness :
    (llm_worker_start witWorker witHostEnv (RuntimeBehavior.mk true true false)
        [Container.mk llmImageName (ContainerSpec.mk llmImageName [] "" [] []) true]).outcome
      = Except.error WorkerError.partialStartError ∧
    ((llm_worker_start witWorker witHostEnv (RuntimeBehavior.mk true true false)
        [Container.mk llmImageName (ContainerSpec.mk llmImageName [] "" [] []) true]).runtime.filter
        (fun c => c.identity == llmImageName)).length = 0 :=
  llm_partial_start_no_orphan witWorker witHostEnv _ "/tmp/res" (by decide) (by decide)

lemma filter_running_of_filter_ne (id : String) (st : List Container) :
    (st.filter (fun c => c.identity != id)).filter
      (fun c => (c.identity == id) && c.running) = [] := by
  rw [List.filter_filter, List.filter_eq_nil_iff]
  intro c _
  by_cases h : c.identity = id <;> simp [h]

lemma llm_start_ok_runtime (w : Worker) (hostEnv : String → Option String)
    (st : List Container) (r : String)
    (hr : w.config.process_config.lookup "results_dir" = some r)
    (hne : r.isEmpty = false) :
    (llm_worker_start w hostEnv allOk st).outcome = Except.ok () ∧
    (llm_worker_start w hostEnv allOk st).runtime
      = st.filter (fun c => c.identity != llmImageName)
          ++ [llmNewContainer w hostEnv r] := by
  rw [llm_start_characterization w hostEnv allOk st r hr hne rfl]
  exact ⟨rfl, rfl⟩

/-- C3: starting the same worker identity twice in sequence ends with
exactly one running container for that identity: each `start()` first
removes every container matching the identity, then creates and starts a
fresh one. -/
theorem llm_idempotent_restart
    (cf : String) (pc : List (String × String)) (rb rb' : List Nat)
    (hostEnv hostEnv' : String → Option String) (st : List Container) (r : String)
    (hr : pc.lookup "results_dir" = some r) (hne : r.isEmpty = false) :
    (llm_worker_start (llm_worker_init cf pc rb) hostEnv allOk st).outcome
        = Except.ok () ∧
    (llm_worker_start (llm_worker_init cf pc rb') hostEnv' allOk
        (llm_worker_start (llm_worker_init cf pc rb) hostEnv allOk st).runtime).outcome
        = Except.ok () ∧
    ((llm_worker_start (llm_worker_init cf pc rb') hostEnv' allOk
        (llm_worker_start (llm_worker_init cf pc rb) hostEnv allOk st).runtime).runtime.filter
      (fun c => (c.identity == llmImageName) && c.running)).length = 1 := by
  obtain ⟨ho1, hrt1⟩ :=
    llm_start_ok_runtime (llm_worker_init cf pc rb) hostEnv st r hr hne
  obtain ⟨ho2, hrt2⟩ :=
    llm_start_ok_runtime (llm_worker_init cf pc rb') hostEnv'
      ((llm_worker_start (llm_worker_init cf pc rb) hostEnv allOk st).runtime) r hr hne
  refine ⟨ho1, ho2, ?_⟩
  rw [hrt2, List.filter_append, filter_running_of_filter_ne]
  simp [llmNewContainer]

/-- Witness for C3: two concrete sequential starts leave exactly one
running container for the LLM worker identity. -/
theorem llm_idempotent_restart_witness :
    (llm_worker_start (llm_worker_init "/cfg/llm.yaml" [("results_dir", "/tmp/res")] [])
        witHostEnv allOk []).outcome = Except.ok () ∧
    (llm_worker_start (llm_worker_init "/cfg/llm.yaml" [("results_dir", "/tmp/res")] [0])
        witHostEnv allOk
        (llm_worker_start (llm_worker_init "/cfg/llm.yaml" [("results_dir", "/tmp/res")] [])
          witHostEnv allOk []).runtime).outcome = Except.ok () ∧
    ((llm_worker_start (llm_worker_init "/cfg/llm.yaml" [("results_dir", "/tmp/res")] [0])
        witHostEnv allOk
        (llm_worker_start (llm_worker_init "/cfg/llm.yaml" [("results_dir", "/tmp/res")] [])
          witHostEnv allOk []).runtime).runtime.filter
      (fun c => (c.identity == llmImageName) && c.running)).length = 1 :=
  llm_idempotent_restart "/cfg/llm.yaml" [("results_dir", "/tmp/res")] [] [0]
    witHostEnv witHostEnv [] "/tmp/res" (by decide) (by decide)

/-- C7: whenever the configuration check passes and cleanup can proceed,
`start()` ends with exactly one device request — count `-1`, capability
class `gpu`, driver `nvidia` — regardless of the rest of
`process_config`; a successful start hands exactly that request to the
created container. -/
theorem llm_gpu_request_unconditional
    (cf : String) (pc : List (String × String)) (rb : List Nat)
    (hostEnv : String → Option String) (beh : RuntimeBehavior)
    (st : List Container) (r : String)
    (hr : pc.lookup "results_dir" = some r) (hne : r.isEmpty = false)
    (hrem : beh.removeOk = true) :
    (llm_worker_start (llm_worker_init cf pc rb) hostEnv beh st).worker.config.device_requests
        = [gpuAllRequest] ∧
    ((llm_worker_start (llm_worker_init cf pc rb) hostEnv beh st).outcome = Except.ok () →
      ((llm_worker_start (llm_worker_init cf pc rb) hostEnv beh st).runtime.filter
          (fun c => c.identity == llmImageName)).map (fun c => c.spec.devices)
        = [[gpuAllRequest]]) := by
  obtain ⟨rem, cr, stk⟩ := beh
  dsimp only at hrem
  subst hrem
  rw [llm_start_characterization (llm_worker_init cf pc rb) hostEnv
    (RuntimeBehavior.mk true cr stk) st r hr hne rfl]
  refine ⟨rfl, ?_⟩
  intro hok
  cases cr with
  | false => exact nomatch hok
  | true =>
    cases stk with
    | false => exact nomatch hok
    | true =>
      show ((List.filter _ (List.filter (fun c => c.identity != llmImageName) st
          ++ [llmNewContainer (llm_worker_init cf pc rb) hostEnv r])).map _) = _
      rw [List.filter_append, filter_eq_id_of_filter_ne]
      simp [llmNewContainer, llmCreateSpec, llmFinalConfig, llm_worker_init]

/-- Witness for C7: a concrete fault-free start appends exactly the one
GPU request and the created container carries it. -/
theorem llm_gpu_request_unconditional_witness :
    (llm_worker_start (llm_worker_init "/cfg/llm.yaml"
        [("results_dir", "/tmp/res"), ("enable_gpu", "false")] []) witHostEnv allOk
        []).worker.config.device_requests = [gpuAllRequest] ∧
    ((llm_worker_start (llm_worker_init "/cfg/llm.yaml"
        [("results_dir", "/tmp/res"), ("enable_gpu", "false")] []) witHostEnv allOk
        []).outcome = Except.ok () →
      ((llm_worker_start (llm_worker_init "/cfg/llm.yaml"
          [("results_dir", "/tmp/res"), ("enable_gpu", "false")] []) witHostEnv allOk
          []).runtime.filter (fun c => c.identity == llmImageName)).map
        (fun c => c.spec.devices) = [[gpuAllRequest]]) :=
  llm_gpu_request_unconditional "/cfg/llm.yaml"
    [("results_dir", "/tmp/res"), ("enable_gpu", "false")] [] witHostEnv allOk
    [] "/tmp/res" (by decide) (by decide) rfl

/-- Counterexample for C8 as stated: when the worker's config-file path
coincides with the results host path `/tmp/.rt_results`, the last-write-wins
volume dict remounts the config file read-write: its binding ends as
`/host/logs/` with mode `rw`, and no read-only binding exists at all. -/
theorem llm_config_mount_counterexample :
    ((llm_worker_start (llm_worker_init "/tmp/.rt_results" [("results_dir", "/tmp/res")] [])
        witHostEnv allOk []).worker.config.container_volumes.lookup "/tmp/.rt_results")
      = some (VolumeBinding.mk "/host/logs/" "rw") ∧
    (∀ kv ∈ (llm_worker_start (llm_worker_init "/tmp/.rt_results" [("results_dir", "/tmp/res")] [])
        witHostEnv allOk []).worker.config.container_volumes,
      kv.2.mode ≠ "ro") := by decide

/-- C8 amended: provided the config-file path differs from the model-cache
path and from the results path `/tmp/.rt_results`, the LLM worker's volume
map binds the config file read-only at `/llm.yaml` and the cache and
results directories read-write, and a successful start hands exactly this
volume map to the created container (read-only bindings are passed through
unchanged, never made writable). -/
theorem llm_volume_modes_amended
    (cf : String) (pc : List (String × String)) (rb : List Nat)
    (hostEnv : String → Option String) (st : List Container) (r : String)
    (hr : pc.lookup "results_dir" = some r) (hne : r.isEmpty = false)
    (hcache : cf ≠ llmCachePath hostEnv) (hres : cf ≠ "/tmp/.rt_results") :
    ((llm_worker_start (llm_worker_init cf pc rb) hostEnv allOk st).worker.config.container_volumes.lookup
        cf).map VolumeBinding.mode = some "ro" ∧
    ((llm_worker_start (llm_worker_init cf pc rb) hostEnv allOk st).worker.config.container_volumes.lookup
        (llmCachePath hostEnv)).map VolumeBinding.mode = some "rw" ∧
    ((llm_worker_start (llm_worker_init cf pc rb) hostEnv allOk st).worker.config.container_volumes.lookup
        "/tmp/.rt_results").map VolumeBinding.mode = some "rw" ∧
    ((llm_worker_start (llm_worker_init cf pc rb) hostEnv allOk st).runtime.filter
        (fun c => c.identity == llmImageName)).map (fun c => c.spec.volumes)
      = [(llm_worker_start (llm_worker_init cf pc rb) hostEnv allOk st).worker.config.container_volumes] := by
  obtain ⟨ho, hrt⟩ := llm_start_ok_runtime (llm_worker_init cf pc rb) hostEnv st r hr hne
  rw [llm_start_characterization (llm_worker_init cf pc rb) hostEnv allOk st r hr hne rfl]
  have hA : ((llmCachePath hostEnv : String) == cf) = false :=
    beq_eq_false_iff_ne.mpr (Ne.symm hcache)
  have hB : (("/tmp/.rt_results" : String) == cf) = false :=
    beq_eq_false_iff_ne.mpr (Ne.symm hres)
  refine ⟨?_, ?_, ?_, ?_⟩
  · show ((llmFinalConfig (llm_worker_init cf pc rb) hostEnv r).container_volumes.lookup
        cf).map VolumeBinding.mode = some "ro"
    by_cases hc : llmCachePath hostEnv = "/tmp/.rt_results" <;>
      simp [llmFinalConfig, llm_worker_init, dictInsert, List.lookup, hc,
        hcache, hres, hA, hB]
  · show ((llmFinalConfig (llm_worker_init cf pc rb) hostEnv r).container_volumes.lookup
        (llmCachePath hostEnv)).map VolumeBinding.mode = some "rw"
    by_cases hc : llmCachePath hostEnv = "/tmp/.rt_results" <;>
      simp [llmFinalConfig, llm_worker_init, dictInsert, List.lookup, hc,
        hcache, hres, hA, hB]
  · show ((llmFinalConfig (llm_worker_init cf pc rb) hostEnv r).container_volumes.lookup
        "/tmp/.rt_results").map VolumeBinding.mode = some "rw"
    by_cases hc : llmCachePath hostEnv = "/tmp/.rt_results"
    · simp [llmFinalConfig, llm_worker_init, dictInsert, List.lookup, hc,
        hcache, hres, hA, hB]
    · have hC : (("/tmp/.rt_results" : String) == llmCachePath hostEnv) = false :=
        beq_eq_false_iff_ne.mpr (Ne.symm hc)
      simp [llmFinalConfig, llm_worker_init, dictInsert, List.lookup, hc,
        hcache, hres, hA, hB, hC]
  · show ((List.filter _ (List.filter (fun c => c.identity != llmImageName) st
        ++ [llmNewContainer (llm_worker_init cf pc rb) hostEnv r])).map _) = _
    rw [List.filter_append, filter_eq_id_of_filter_ne]
    simp [llmNewContainer, llmCreateSpec, llmFinalConfig, llm_worker_init]

/-- Witness for the amended C8 on concrete, distinct paths. -/
theorem llm_volume_modes_amended_witness :
    ((llm_worker_start (llm_worker_init "/cfg/llm.yaml" [("results_dir", "/tmp/res")] [])
        witHostEnv allOk []).worker.config.container_volumes.lookup
        "/cfg/llm.yaml").map VolumeBinding.mode = some "ro" ∧
    ((llm_worker_start (llm_worker_init "/cfg/llm.yaml" [("results_dir", "/tmp/res")] [])
        witHostEnv allOk []).worker.config.container_volumes.lookup
        (llmCachePath witHostEnv)).map VolumeBinding.mode = some "rw" ∧
    ((llm_worker_start (llm_worker_init "/cfg/llm.yaml" [("results_dir", "/tmp/res")] [])
        witHostEnv allOk []).worker.config.container_volumes.lookup
        "/tmp/.rt_results").map VolumeBinding.mode = some "rw" ∧
    ((llm_worker_start (llm_worker_init "/cfg/llm.yaml" [("results_dir", "/tmp/res")] [])
        witHostEnv allOk []).runtime.filter
        (fun c => c.identity == llmImageName)).map (fun c => c.spec.volumes)
      = [(llm_worker_start (llm_worker_init "/cfg/llm.yaml" [("results_dir", "/tmp/res")] [])
          witHostEnv allOk []).worker.config.container_volumes] :=
  llm_volume_modes_amended "/cfg/llm.yaml" [("results_dir", "/tmp/res")] []
    witHostEnv [] "/tmp/res" (by decide) (by decide) (by decide) (by decide)

lemma splitOnceEq_no_sep (spec : List Char) (h : '=' ∉ spec) :
    splitOnceEq spec = (spec, none) := by
  induction spec with
  | nil => rfl
  | cons c rest ih =>
    unfold splitOnceEq
    rw [if_neg (by intro hc; exact h (hc ▸ List.mem_cons_self c rest))]
    rw [ih (fun hm => h (List.mem_cons_of_mem c hm))]

lemma splitOnceEq_first_sep (pre post : List Char) (h : '=' ∉ pre) :
    splitOnceEq (pre ++ '=' :: post) = (pre, some post) := by
  induction pre with
  | nil => simp [splitOnceEq]
  | cons c rest ih =>
    unfold splitOnceEq
    rw [List.cons_append]
    simp only []
    rw [if_neg (by intro hc; exact h (hc ▸ List.mem_cons_self c rest))]
    rw [ih (fun hm => h (List.mem_cons_of_mem c hm))]

/-- C10: `check_env_variable` splits only at the first `=`: for a
specification `pre ++ "=" ++ post` with no `=` in `pre`, the check passes
exactly when the environment maps `pre` to precisely `post` (which may
itself contain `=`); for a specification without `=`, it passes exactly
when the variable is set to any value. -/
theorem check_env_variable_first_split
    (env : List Char → Option (List Char)) (pre post spec : List Char)
    (hpre : '=' ∉ pre) (hspec : '=' ∉ spec) :
    (check_env_variable env (pre ++ '=' :: post) = true ↔ env pre = some post) ∧
    (check_env_variable env spec = true ↔ (env spec).isSome = true) := by
  constructor
  · unfold check_env_variable
    rw [splitOnceEq_first_sep pre post hpre]
    cases ha : env pre with
    | none => simp [ha]
    | some actual =>
      by_cases hev : actual = post
      · simp [ha, hev]
      · simp [ha, hev, fun h => hev (Option.some_injective _ h)]
  · unfold check_env_variable
    rw [splitOnceEq_no_sep spec hspec]
    cases ha : env spec with
    | none => simp [ha]
    | some actual => simp [ha]

/-- Witness for C10 on a concrete environment: `A=B=C` looks up variable
`A` and expects exactly `B=C`; plain `A` only requires `A` to be set. -/
theorem check_env_variable_first_split_witness :
    (check_env_variable
        (fun v => if v = ['A'] then some ['B', '=', 'C'] else none)
        (['A'] ++ '=' :: ['B', '=', 'C']) = true ↔
      (fun v : List Char => if v = ['A'] then some ['B', '=', 'C'] else none) ['A']
        = some ['B', '=', 'C']) ∧
    (check_env_variable
        (fun v => if v = ['A'] then some ['B', '=', 'C'] else none)
        ['A'] = true ↔
      ((fun v : List Char => if v = ['A'] then some ['B', '=', 'C'] else none) ['A']).isSome
        = true) :=
  check_env_variable_first_split
    (fun v => if v = ['A'] then some ['B', '=', 'C'] else none)
    ['A'] ['B', '=', 'C'] ['A'] (by decide) (by decide)

lemma fold_checks {α : Type} (f : α → CheckKind) (g : α → Bool) (l : List α)
    (acc : List (CheckKind × Bool) × Bool) :
    l.foldl (fun acc s => (acc.1 ++ [(f s, g s)], acc.2 || !(g s))) acc
      = (acc.1 ++ l.map (fun s => (f s, g s)),
         acc.2 || l.any (fun s => !(g s))) := by
  induction l generalizing acc with
  | nil => simp
  | cons x xs ih => simp [ih, Bool.or_assoc]

lemma list_any_map {A B : Type} (f : A → B) (p : B → Bool) (l : List A) :
    (l.map f).any p = l.any (fun x => p (f x)) := by
  induction l with
  | nil => rfl
  | cons x xs ih => simp [ih]

lemma imagesBlock_eq (a : Args) (w : World) (acc : List (CheckKind × Bool) × Bool) :
    imagesBlock a w acc
      = (acc.1 ++ (blkImages a).map (fun k => (k, runCheck w k)),
         acc.2 || (blkImages a).any (fun k => !(runCheck w k))) := by
  unfold imagesBlock blkImages
  cases himgs : a.images_dir with
  | none => simp
  | some d => by_cases hd : d.isEmpty <;> simp [hd, runCheck]

lemma usbBlock_eq (a : Args) (w : World) (acc : List (CheckKind × Bool) × Bool) :
    usbBlock a w acc
      = (acc.1 ++ (blkUsb a).map (fun k => (k, runCheck w k)),
         acc.2 || (blkUsb a).any (fun k => !(runCheck w k))) := by
  unfold usbBlock blkUsb
  by_cases hu : a.check_usb <;> simp [hu, runCheck]

lemma hostBlock_eq (a : Args) (w : World) (acc : List (CheckKind × Bool) × Bool) :
    hostBlock a w acc
      = (acc.1 ++ (blkHost a).map (fun k => (k, runCheck w k)),
         acc.2 || (blkHost a).any (fun k => !(runCheck w k))) := by
  unfold hostBlock blkHost
  cases hhost : a.check_host with
  | none => simp
  | some h => by_cases hh : h.isEmpty <;> simp [hh, runCheck]

lemma envBlock_eq (a : Args) (w : World) (acc : List (CheckKind × Bool) × Bool) :
    envBlock a w acc
      = (acc.1 ++ (blkEnv a).map (fun k => (k, runCheck w k)),
         acc.2 || (blkEnv a).any (fun k => !(runCheck w k))) := by
  unfold envBlock blkEnv
  rw [fold_checks CheckKind.envVar (fun s => check_env_variable w.env s) a.check_env]
  simp [runCheck, list_any_map]

lemma configBlock_eq (a : Args) (w : World) (acc : List (CheckKind × Bool) × Bool) :
    configBlock a w acc
      = (acc.1 ++ (blkConfig a).map (fun k => (k, runCheck w k)),
         acc.2 || (blkConfig a).any (fun k => !(runCheck w k))) := by
  unfold configBlock blkConfig
  rw [fold_checks CheckKind.configFile (fun p => w.config_ok p) a.check_config]
  simp [runCheck, list_any_map]

lemma influxBlock_eq (a : Args) (w : World) (acc : List (CheckKind × Bool) × Bool) :
    influxBlock a w acc
      = (acc.1 ++ (blkInflux a).map (fun k => (k, runCheck w k)),
         acc.2 || (blkInflux a).any (fun k => !(runCheck w k))) := by
  unfold influxBlock blkInflux
  by_cases hi : a.check_influxdb <;> simp [hi, runCheck]

lemma apiBlock_eq (a : Args) (w : World) (acc : List (CheckKind × Bool) × Bool) :
    apiBlock a w acc
      = (acc.1 ++ (blkApi a).map (fun k => (k, runCheck w k)),
         acc.2 || (blkApi a).any (fun k => !(runCheck w k))) := by
  unfold apiBlock blkApi
  by_cases hc : a.check_control_api <;> simp [hc, runCheck]

/-- `checkEnvMain` in closed form: the recorded results are exactly the
requested checks in order, each paired with its outcome, and the exit
status is 1 exactly when some outcome is a failure. -/
lemma checkEnvMain_eq (a : Args) (w : World) :
    checkEnvMain a w =
      ((requestedChecks a).map (fun k => (k, runCheck w k)),
       if ((requestedChecks a).map (fun k => (k, runCheck w k))).any
            (fun p => !p.2)
       then 1 else 0) := by
  unfold checkEnvMain
  rw [imagesBlock_eq, usbBlock_eq, hostBlock_eq, envBlock_eq, configBlock_eq,
    influxBlock_eq, apiBlock_eq]
  dsimp only
  have hflag :
      (((((((false || (blkImages a).any (fun k => !(runCheck w k)))
          || (blkUsb a).any (fun k => !(runCheck w k)))
          || (blkHost a).any (fun k => !(runCheck w k)))
          || (blkEnv a).any (fun k => !(runCheck w k)))
          || (blkConfig a).any (fun k => !(runCheck w k)))
          || (blkInflux a).any (fun k => !(runCheck w k)))
          || (blkApi a).any (fun k => !(runCheck w k)))
        = ((requestedChecks a).map (fun k => (k, runCheck w k))).any
            (fun p => !p.2) := by
    simp [requestedChecks, List.any_append, list_any_map, Bool.or_assoc]
  rw [hflag]
  have hres :
      ((((((([] ++ (blkImages a).map (fun k => (k, runCheck w k)))
          ++ (blkUsb a).map (fun k => (k, runCheck w k)))
          ++ (blkHost a).map (fun k => (k, runCheck w k)))
          ++ (blkEnv a).map (fun k => (k, runCheck w k)))
          ++ (blkConfig a).map (fun k => (k, runCheck w k)))
          ++ (blkInflux a).map (fun k => (k, runCheck w k)))
          ++ (blkApi a).map (fun k => (k, runCheck w k)))
        = (requestedChecks a).map (fun k => (k, runCheck w k)) := by
    simp [requestedChecks, List.map_append, List.append_assoc]
  rw [hres]

/-- C9: the checklist CLI runs every requested check (recording one
pass/fail line per check, in order, even after a failure), and exits with
status 0 exactly when every requested check passed; when at least one
requested check fails it exits with status 1. -/
theorem checkEnv_runs_all_exit_status (a : Args) (w : World) :
    ((checkEnvMain a w).1.map Prod.fst = requestedChecks a) ∧
    ((checkEnvMain a w).2 = 0 ↔ ∀ p ∈ (checkEnvMain a w).1, p.2 = true) ∧
    ((checkEnvMain a w).2 = 1 ↔ ∃ p ∈ (checkEnvMain a w).1, p.2 = false) := by
  rw [checkEnvMain_eq]
  dsimp only
  refine ⟨?_, ?_, ?_⟩
  · rw [List.map_map]
    exact List.map_id _ ▸ (by rfl : List.map (Prod.fst ∘ fun k => (k, runCheck w k)) (requestedChecks a) = List.map id (requestedChecks a))
  · by_cases hA : ((requestedChecks a).map (fun k => (k, runCheck w k))).any
        (fun p => !p.2) = true
    · rw [if_pos hA]
      simp only [List.any_eq_true] at hA
      obtain ⟨p, hp, hnp⟩ := hA
      constructor
      · intro h
        exact absurd h one_ne_zero
      · intro hall
        rw [hall p hp] at hnp
        simp at hnp
    · rw [if_neg hA]
      rw [Bool.not_eq_true] at hA
      constructor
      · intro _ p hp
        have hnp := List.any_eq_false.mp hA p hp
        simpa using hnp
      · intro _
        rfl
  · by_cases hA : ((requestedChecks a).map (fun k => (k, runCheck w k))).any
        (fun p => !p.2) = true
    · rw [if_pos hA]
      simp only [List.any_eq_true] at hA
      obtain ⟨p, hp, hnp⟩ := hA
      exact ⟨fun _ => ⟨p, hp, by simpa using hnp⟩, fun _ => rfl⟩
    · rw [if_neg hA]
      rw [Bool.not_eq_true] at hA
      constructor
      · intro h
        exact absurd h.symm one_ne_zero
      · rintro ⟨p, hp, hp2⟩
        have hnp := List.any_eq_false.mp hA p hp
        exact absurd (by simp [hp2]) hnp

/-- Witness for C9: on a concrete invocation requesting four checks, the
recorded lines cover exactly the requested checks in order. -/
theorem checkEnv_runs_all_exit_status_witness :
    ((checkEnvMain
        (Args.mk (some "/imgs") true none [['P', 'A']] ["/etc/a.yaml"] false false)
        (World.mk (fun _ => true) false (fun _ => true) (fun _ => none)
          (fun _ => true) true true)).1.map Prod.fst
      = requestedChecks
          (Args.mk (some "/imgs") true none [['P', 'A']] ["/etc/a.yaml"] false false)) :=
  (checkEnv_runs_all_exit_status
    (Args.mk (some "/imgs") true none [['P', 'A']] ["/etc/a.yaml"] false false)
    (World.mk (fun _ => true) false (fun _ => true) (fun _ => none)
      (fun _ => true) true true)).1

/-! ### Token entropy lemmas -/

lemma b64Sextets_lt (l : List Nat) (h : ∀ x ∈ l, x < 256) :
    ∀ s ∈ b64Sextets l, s < 64 := by
  induction l using b64Sextets.induct with
  | case1 a b c rest ih =>
    have ha := h a (by simp)
    have hb := h b (by simp)
    have hc := h c (by simp)
    intro s hs
    unfold b64Sextets at hs
    simp only [List.mem_cons] at hs
    rcases hs with rfl | rfl | rfl | rfl | hs
    · omega
    · omega
    · omega
    · omega
    · exact ih (fun x hx => h x (by simp [hx])) s hs
  | case2 a b =>
    have ha := h a (by simp)
    have hb := h b (by simp)
    intro s hs
    unfold b64Sextets at hs
    simp only [List.mem_cons, List.not_mem_nil, or_false] at hs
    rcases hs with rfl | rfl | rfl <;> omega
  | case3 a =>
    have ha := h a (by simp)
    intro s hs
    unfold b64Sextets at hs
    simp only [List.mem_cons, List.not_mem_nil, or_false] at hs
    rcases hs with rfl | rfl <;> omega
  | case4 =>
    intro s hs
    simp [b64Sextets] at hs

lemma b64Unsextets_b64Sextets (l : List Nat) (h : ∀ x ∈ l, x < 256) :
    b64Unsextets (b64Sextets l) = l := by
  induction l using b64Sextets.induct with
  | case1 a b c rest ih =>
    have ha := h a (by simp)
    have hb := h b (by simp)
    have hc := h c (by simp)
    have ih' := ih (fun x hx => h x (by simp [hx]))
    unfold b64Sextets b64Unsextets
    rw [ih']
    have e1 : a / 4 * 4 + ((a % 4) * 16 + b / 16) / 16 = a := by omega
    have e2 : ((a % 4) * 16 + b / 16) % 16 * 16 + ((b % 16) * 4 + c / 64) / 4 = b := by
      omega
    have e3 : ((b % 16) * 4 + c / 64) % 4 * 64 + c % 64 = c := by omega
    rw [e1, e2, e3]
  | case2 a b =>
    have ha := h a (by simp)
    have hb := h b (by simp)
    unfold b64Sextets b64Unsextets
    have e1 : a / 4 * 4 + ((a % 4) * 16 + b / 16) / 16 = a := by omega
    have e2 : ((a % 4) * 16 + b / 16) % 16 * 16 + (b % 16) * 4 / 4 = b := by omega
    rw [e1, e2]
  | case3 a =>
    have ha := h a (by simp)
    unfold b64Sextets b64Unsextets
    have e1 : a / 4 * 4 + (a % 4) * 16 / 16 = a := by omega
    rw [e1]
  | case4 => rfl

lemma b64Sextets_length (l : List Nat) :
    (b64Sextets l).length = (l.length * 4 + 2) / 3 := by
  induction l using b64Sextets.induct with
  | case1 a b c rest ih =>
    unfold b64Sextets
    simp only [List.length_cons, ih]
    omega
  | case2 a b =>
    unfold b64Sextets
    simp only [List.length_cons, List.length_nil]
  | case3 a =>
    unfold b64Sextets
    simp only [List.length_cons, List.length_nil]
  | case4 => rfl

lemma b64Sextets_inj (l1 l2 : List Nat)
    (h1 : ∀ x ∈ l1, x < 256) (h2 : ∀ x ∈ l2, x < 256)
    (he : b64Sextets l1 = b64Sextets l2) : l1 = l2 := by
  have := congrArg b64Unsextets he
  rwa [b64Unsextets_b64Sextets l1 h1, b64Unsextets_b64Sextets l2 h2] at this

lemma b64CharVal_b64Char : ∀ n, n < 64 → b64CharVal (b64Char n) = n := by decide

lemma b64Char_mem : ∀ n, n < 64 → b64Char n ∈ b64Alphabet := by decide

lemma map_b64Char_inj (s t : List Nat)
    (hs : ∀ x ∈ s, x < 64) (ht : ∀ x ∈ t, x < 64)
    (he : s.map b64Char = t.map b64Char) : s = t := by
  induction s generalizing t with
  | nil =>
    cases t with
    | nil => rfl
    | cons y ys => simp at he
  | cons x xs ih =>
    cases t with
    | nil => simp at he
    | cons y ys =>
      simp only [List.map_cons, List.cons.injEq] at he
      have hx : x = y := by
        have hv := congrArg b64CharVal he.1
        rwa [b64CharVal_b64Char x (hs x (by simp)),
          b64CharVal_b64Char y (ht y (by simp))] at hv
      have hrest := ih ys (fun a ha => hs a (by simp [ha]))
        (fun a ha => ht a (by simp [ha])) he.2
      rw [hx, hrest]

lemma tokenUrlsafe_inj (l1 l2 : List Nat)
    (h1 : ∀ x ∈ l1, x < 256) (h2 : ∀ x ∈ l2, x < 256)
    (he : tokenUrlsafe l1 = tokenUrlsafe l2) : l1 = l2 := by
  unfold tokenUrlsafe at he
  exact b64Sextets_inj l1 l2 h1 h2
    (map_b64Char_inj _ _ (b64Sextets_lt l1 h1) (b64Sextets_lt l2 h2) he)

/-- C4: the access token issued at construction is
`secrets.token_urlsafe(32)`: the URL-safe base64 encoding of exactly the
first 32 bytes drawn from the CSPRNG.  For any byte strings the CSPRNG can
produce, the token is 43 characters over the URL-safe alphabet, and the
encoding loses no entropy: workers whose 32 random bytes differ anywhere
receive different tokens, so two distinct instances collide only if the
CSPRNG emits identical 256-bit strings. -/
theorem llm_token_entropy
    (cf cf' : String) (pc pc' : List (String × String)) (rb rb' : List Nat)
    (h1 : ∀ x ∈ rb, x < 256) (hl1 : 32 ≤ rb.length)
    (h2 : ∀ x ∈ rb', x < 256) :
    (llm_worker_init cf pc rb).access_token = tokenUrlsafe (rb.take 32) ∧
    (llm_worker_init cf pc rb).access_token.length = 43 ∧
    (∀ c ∈ (llm_worker_init cf pc rb).access_token, c ∈ b64Alphabet) ∧
    (rb.take 32 ≠ rb'.take 32 →
      (llm_worker_init cf pc rb).access_token
        ≠ (llm_worker_init cf' pc' rb').access_token) := by
  have htake1 : ∀ x ∈ rb.take 32, x < 256 :=
    fun x hx => h1 x (List.take_subset 32 rb hx)
  have htake2 : ∀ x ∈ rb'.take 32, x < 256 :=
    fun x hx => h2 x (List.take_subset 32 rb' hx)
  refine ⟨rfl, ?_, ?_, ?_⟩
  · show (tokenUrlsafe (rb.take 32)).length = 43
    unfold tokenUrlsafe
    rw [List.length_map, b64Sextets_length, List.length_take,
      min_eq_left hl1]
  · intro c hc
    have hc' : c ∈ tokenUrlsafe (rb.take 32) := hc
    unfold tokenUrlsafe at hc'
    rw [List.mem_map] at hc'
    obtain ⟨s, hsmem, rfl⟩ := hc'
    exact b64Char_mem s (b64Sextets_lt _ htake1 s hsmem)
  · intro hne he
    exact hne (tokenUrlsafe_inj _ _ htake1 htake2 he)

/-- Witness for C4: two workers whose CSPRNG draws differ receive
different 43-character tokens. -/
theorem llm_token_entropy_witness :
    (llm_worker_init "/cfg/llm.yaml" [] (List.range 32)).access_token
      ≠ (llm_worker_init "/cfg/llm.yaml" [] (List.replicate 32 255)).access_token :=
  (llm_token_entropy "/cfg/llm.yaml" "/cfg/llm.yaml" [] [] (List.range 32)
    (List.replicate 32 255) (by decide) (by decide) (by decide)).2.2.2
    (by decide)
